import Mathlib

/-!
Verification of the pricing engine of the Price-Calculation app
(`src/app/(tabs)/index.tsx`): input validation (`validateInputs`),
the pricing pipeline (`calculateFinalPrice`), and the calculation
history (`addToHistory`).

Numbers are modelled as rationals.  The utility
`roundToTwoDecimals(value) = Math.round((value + Number.EPSILON) * 100) / 100`
is translated exactly, with `Number.EPSILON = 2 ^ (-52)` and JS
`Math.round x = ⌊x + 1/2⌋`, which is Mathlib's `round`.

A raw form field (a JS string in a controlled TextInput) is modelled by
`Raw`: `empty` (the empty string, falsy), `nan` (a non-empty string for
which `isNaN` returns true), or `num q` (a non-empty numeric string with
`parseFloat` value `q`).  `parseFloat` of a non-numeric or empty string
is NaN in JS; the model returns 0 there.  This is only observable on
inputs that fail validation, where no claim constrains the evaluator.
-/

namespace PriceCalc

/-- A raw string form field: empty, non-numeric, or numeric with value `q`. -/
inductive Raw where
  | empty : Raw
  | nan : Raw
  | num (q : ℚ) : Raw
deriving DecidableEq

/-- JS truthiness of the field string: only the empty string is falsy. -/
def Raw.truthy : Raw → Bool
  | .empty => false
  | .nan => true
  | .num _ => true

/-- Result of JS `isNaN` on the field string (guarded by truthiness in the code). -/
def Raw.isNaNStr : Raw → Bool
  | .empty => false
  | .nan => true
  | .num _ => false

/-- JS `parseFloat` of the field string; NaN is modelled as 0 (see header). -/
def parseFloat : Raw → ℚ
  | .empty => 0
  | .nan => 0
  | .num q => q

/-- The consolidated form state fed to validation and calculation
(the `quantity` field of the JS form state is never read by either). -/
structure Form where
  originalPrice : Raw := .empty
  discountRate : Raw := .empty
  shippingFee : Raw := .empty
  useCoupon : Bool := false
  couponValue : Raw := .empty
  buyX : Raw := .empty
  getY : Raw := .empty
  itemPrice : Raw := .empty
  spendAmount : Raw := .empty
  saveAmount : Raw := .empty
  taxRate : Raw := .empty
deriving DecidableEq

/-- JS `Number.EPSILON`. -/
def numberEpsilon : ℚ := 1 / 2 ^ 52

/-- `roundToTwoDecimals` from the source. -/
def roundToTwoDecimals (value : ℚ) : ℚ :=
  ((round ((value + numberEpsilon) * 100) : ℤ) : ℚ) / 100

/-- The slack of `roundToTwoDecimals`: it changes its argument by at most
`numberEpsilon + 1/200` (half a cent plus the epsilon correction). -/
def round2Slack : ℚ := numberEpsilon + 1 / 200

/-- Per-field validation error messages, as produced by `validateInputs`. -/
structure Errors where
  originalPrice : Option String := none
  discountRate : Option String := none
  shippingFee : Option String := none
  taxRate : Option String := none
  couponValue : Option String := none
  buyX : Option String := none
  getY : Option String := none
  itemPrice : Option String := none
  spendAmount : Option String := none
  saveAmount : Option String := none
deriving DecidableEq

/-- `Object.keys(newErrors).length === 0`: no field carries an error. -/
def Errors.isEmpty (e : Errors) : Bool :=
  e.originalPrice.isNone && e.discountRate.isNone && e.shippingFee.isNone &&
  e.taxRate.isNone && e.couponValue.isNone && e.buyX.isNone && e.getY.isNone &&
  e.itemPrice.isNone && e.spendAmount.isNone && e.saveAmount.isNone

/-- Rule 1 condition: `!originalPrice || isNaN(originalPrice) || parseFloat(originalPrice) <= 0`. -/
def origBad (f : Form) : Prop :=
  ¬f.originalPrice.truthy = true ∨ f.originalPrice.isNaNStr = true ∨
    parseFloat f.originalPrice ≤ 0

/-- Rule 2 condition: `discountRate && (isNaN || pf < 0 || pf >= 100)`. -/
def discountBad (f : Form) : Prop :=
  f.discountRate.truthy = true ∧ (f.discountRate.isNaNStr = true ∨
    parseFloat f.discountRate < 0 ∨ 100 ≤ parseFloat f.discountRate)

/-- Rule 3 condition: `shippingFee && (isNaN || pf < 0)`. -/
def shippingBad (f : Form) : Prop :=
  f.shippingFee.truthy = true ∧ (f.shippingFee.isNaNStr = true ∨
    parseFloat f.shippingFee < 0)

/-- Rule 4 condition: `taxRate && (isNaN || pf < 0)`. -/
def taxBad (f : Form) : Prop :=
  f.taxRate.truthy = true ∧ (f.taxRate.isNaNStr = true ∨
    parseFloat f.taxRate < 0)

/-- Rule 5 condition: `useCoupon && (!couponValue || isNaN || pf <= 0)`. -/
def couponBad (f : Form) : Prop :=
  f.useCoupon = true ∧ (¬f.couponValue.truthy = true ∨
    f.couponValue.isNaNStr = true ∨ parseFloat f.couponValue ≤ 0)

/-- Rule 6 condition: `(buyX || getY) && (!buyX || !getY || isNaN(buyX) || isNaN(getY) || pf(buyX) <= 0 || pf(getY) <= 0)`. -/
def buyPairBad (f : Form) : Prop :=
  (f.buyX.truthy = true ∨ f.getY.truthy = true) ∧
    (¬f.buyX.truthy = true ∨ ¬f.getY.truthy = true ∨
      f.buyX.isNaNStr = true ∨ f.getY.isNaNStr = true ∨
      parseFloat f.buyX ≤ 0 ∨ parseFloat f.getY ≤ 0)

/-- Rule 7 condition: `(buyX || getY) && (!itemPrice || isNaN || pf <= 0)`. -/
def itemPriceBad (f : Form) : Prop :=
  (f.buyX.truthy = true ∨ f.getY.truthy = true) ∧
    (¬f.itemPrice.truthy = true ∨ f.itemPrice.isNaNStr = true ∨
      parseFloat f.itemPrice ≤ 0)

/-- Rule 8 condition: `(spendAmount || saveAmount) && (!spendAmount || !saveAmount || isNaN(spendAmount) || isNaN(saveAmount) || pf(spendAmount) <= 0 || pf(saveAmount) <= 0)`. -/
def spendPairBad (f : Form) : Prop :=
  (f.spendAmount.truthy = true ∨ f.saveAmount.truthy = true) ∧
    (¬f.spendAmount.truthy = true ∨ ¬f.saveAmount.truthy = true ∨
      f.spendAmount.isNaNStr = true ∨ f.saveAmount.isNaNStr = true ∨
      parseFloat f.spendAmount ≤ 0 ∨ parseFloat f.saveAmount ≤ 0)

instance (f : Form) : Decidable (origBad f) := by unfold origBad; infer_instance

instance (f : Form) : Decidable (discountBad f) := by unfold discountBad; infer_instance

instance (f : Form) : Decidable (shippingBad f) := by unfold shippingBad; infer_instance

instance (f : Form) : Decidable (taxBad f) := by unfold taxBad; infer_instance

instance (f : Form) : Decidable (couponBad f) := by unfold couponBad; infer_instance

instance (f : Form) : Decidable (buyPairBad f) := by unfold buyPairBad; infer_instance

instance (f : Form) : Decidable (itemPriceBad f) := by unfold itemPriceBad; infer_instance

instance (f : Form) : Decidable (spendPairBad f) := by unfold spendPairBad; infer_instance

/-- `validateInputs` from the source: every rule is checked, each
violated rule writes its message onto the fields it owns, and the
complete error map is returned. -/
def validateInputs (f : Form) : Errors where
  originalPrice := if origBad f then some "Please enter a valid positive price" else none
  discountRate := if discountBad f then some "Discount must be between 0-99%" else none
  shippingFee := if shippingBad f then some "Shipping fee cannot be negative" else none
  taxRate := if taxBad f then some "Tax rate cannot be negative" else none
  couponValue := if couponBad f then some "Please enter a valid coupon value" else none
  buyX := if buyPairBad f then some "Both \"Buy X\" and \"Get Y\" must be positive numbers" else none
  getY := if buyPairBad f then some "Both \"Buy X\" and \"Get Y\" must be positive numbers" else none
  itemPrice := if itemPriceBad f then some "Please enter a valid item price" else none
  spendAmount := if spendPairBad f then some "Both \"Spend\" and \"Save\" amounts must be positive numbers" else none
  saveAmount := if spendPairBad f then some "Both \"Spend\" and \"Save\" amounts must be positive numbers" else none

/-- The itemized output record of the pipeline. -/
structure Breakdown where
  basePrice : ℚ
  discountAmount : ℚ
  couponAmount : ℚ
  promotionAmount : ℚ
  spendSaveAmount : ℚ
  shippingFee : ℚ
  taxAmount : ℚ
deriving DecidableEq

/-- The running total threaded through the stages together with the
breakdown accumulator. -/
structure StageState where
  runningTotal : ℚ
  breakdown : Breakdown
deriving DecidableEq

/-- `const shipping = form.shippingFee ? parseFloat(form.shippingFee) : 0`. -/
def shippingOf (f : Form) : ℚ :=
  if f.shippingFee.truthy then parseFloat f.shippingFee else 0

/-- `const taxRate = form.taxRate ? parseFloat(form.taxRate) : 0`. -/
def taxRateOf (f : Form) : ℚ :=
  if f.taxRate.truthy then parseFloat f.taxRate else 0

/-- Initial state of `calculateFinalPrice`: running total and
`breakdown.basePrice` are `parseFloat(form.originalPrice)`, the shipping
fee is recorded up front, every other breakdown field starts at 0. -/
def initState (f : Form) : StageState where
  runningTotal := parseFloat f.originalPrice
  breakdown :=
    { basePrice := parseFloat f.originalPrice
      discountAmount := 0
      couponAmount := 0
      promotionAmount := 0
      spendSaveAmount := 0
      shippingFee := shippingOf f
      taxAmount := 0 }

/-- Stage 1, percentage discount:
`if (form.discountRate && parseFloat(form.discountRate) > 0)`. -/
def applyDiscount (f : Form) (s : StageState) : StageState :=
  if f.discountRate.truthy = true ∧ 0 < parseFloat f.discountRate then
    let discountAmount := roundToTwoDecimals (s.runningTotal * (parseFloat f.discountRate / 100))
    { runningTotal := s.runningTotal - discountAmount
      breakdown := { s.breakdown with discountAmount := discountAmount } }
  else s

/-- Stage 2, buy X get Y: quantity is `Math.ceil(basePrice / singleItemPrice)`,
`freeItemsCount = Math.floor(quantity / buyX) * getY`, and the deduction is
`roundToTwoDecimals(Math.min(runningTotal, freeItemsCount * singleItemPrice))`. -/
def applyBuyXGetY (f : Form) (s : StageState) : StageState :=
  if f.buyX.truthy = true ∧ f.getY.truthy = true ∧ f.itemPrice.truthy = true ∧
      0 < parseFloat f.buyX ∧ 0 < parseFloat f.getY ∧ 0 < parseFloat f.itemPrice then
    let singleItemPrice := parseFloat f.itemPrice
    let quantity : ℤ := ⌈s.breakdown.basePrice / singleItemPrice⌉
    if 0 < quantity then
      let freeItemsCount : ℚ := ((⌊(quantity : ℚ) / parseFloat f.buyX⌋ : ℤ) : ℚ) * parseFloat f.getY
      let freeItemsValue := roundToTwoDecimals (min s.runningTotal (freeItemsCount * singleItemPrice))
      { runningTotal := s.runningTotal - freeItemsValue
        breakdown := { s.breakdown with promotionAmount := freeItemsValue } }
    else s
  else s

/-- Stage 3, fixed coupon:
`if (form.useCoupon && form.couponValue && parseFloat(form.couponValue) > 0)`. -/
def applyCoupon (f : Form) (s : StageState) : StageState :=
  if f.useCoupon = true ∧ f.couponValue.truthy = true ∧ 0 < parseFloat f.couponValue then
    let couponAmount := min s.runningTotal (parseFloat f.couponValue)
    { runningTotal := s.runningTotal - couponAmount
      breakdown := { s.breakdown with couponAmount := couponAmount } }
  else s

/-- Stage 4, spend and save: fires when both fields are positive and
`basePrice >= parseFloat(form.spendAmount)`. -/
def applySpendSave (f : Form) (s : StageState) : StageState :=
  if f.spendAmount.truthy = true ∧ f.saveAmount.truthy = true ∧
      0 < parseFloat f.spendAmount ∧ 0 < parseFloat f.saveAmount ∧
      parseFloat f.spendAmount ≤ s.breakdown.basePrice then
    let saveAmount := min s.runningTotal (parseFloat f.saveAmount)
    { runningTotal := s.runningTotal - saveAmount
      breakdown := { s.breakdown with spendSaveAmount := saveAmount } }
  else s

/-- Stage 5, shipping: `runningTotal += shipping` (the breakdown field was
already recorded when the state was initialised). -/
def applyShipping (f : Form) (s : StageState) : StageState :=
  { runningTotal := s.runningTotal + shippingOf f
    breakdown := s.breakdown }

/-- Stage 6, tax: `if (taxRate > 0)` add
`roundToTwoDecimals(runningTotal * (taxRate / 100))` to the running total. -/
def applyTax (f : Form) (s : StageState) : StageState :=
  if 0 < taxRateOf f then
    let taxAmount := roundToTwoDecimals (s.runningTotal * (taxRateOf f / 100))
    { runningTotal := s.runningTotal + taxAmount
      breakdown := { s.breakdown with taxAmount := taxAmount } }
  else s

/-- The six pricing stages of `calculateFinalPrice`, in the source's fixed order. -/
def pipeline (f : Form) : StageState :=
  applyTax f (applyShipping f (applySpendSave f (applyCoupon f
    (applyBuyXGetY f (applyDiscount f (initState f))))))

/-- The state reaching the spend-and-save stage (after discount,
promotion and coupon). -/
def preSpendState (f : Form) : StageState :=
  applyCoupon f (applyBuyXGetY f (applyDiscount f (initState f)))

/-- The state reaching the tax stage (after all deductions and shipping). -/
def preTaxState (f : Form) : StageState :=
  applyShipping f (applySpendSave f (preSpendState f))

/-- The structured output of a calculation. -/
structure PricingResult where
  finalPrice : ℚ
  totalSavings : ℚ
  breakdown : Breakdown
deriving DecidableEq

/-- Stage 7 (the `Math.max(0, runningTotal)` clamp), the savings
aggregation, and the final rounding, exactly as in `calculateFinalPrice`. -/
def evaluate (f : Form) : PricingResult :=
  let s := pipeline f
  let runningTotal := max 0 s.runningTotal
  { finalPrice := roundToTwoDecimals runningTotal
    totalSavings := roundToTwoDecimals (s.breakdown.discountAmount +
      s.breakdown.couponAmount + s.breakdown.promotionAmount +
      s.breakdown.spendSaveAmount)
    breakdown := s.breakdown }

/-- One entry of the calculation history.  The JS item also carries
`id = Date.now()`, a wall-clock timestamp string, and the display
currency; those are outside the pure model. -/
structure HistoryItem where
  originalPrice : Raw
  finalPrice : ℚ
  totalSavings : ℚ
  breakdown : Breakdown
deriving DecidableEq

/-- `addToHistory`: `setHistory(prev => [historyItem, ...prev].slice(0, 10))`. -/
def addToHistory (item : HistoryItem) (prev : List HistoryItem) : List HistoryItem :=
  (item :: prev).take 10

/-- The part of the component state the calculation handler writes. -/
structure AppState where
  results : Option PricingResult
  history : List HistoryItem
deriving DecidableEq

/-- The `calculateFinalPrice` handler: if validation fails it returns
before running any stage, leaving results and history untouched;
otherwise it runs the pipeline, stores the result and prepends it to the
history. -/
def pressCalculate (f : Form) (st : AppState) : AppState :=
  if (validateInputs f).isEmpty then
    let r := evaluate f
    { results := some r
      history := addToHistory
        { originalPrice := f.originalPrice
          finalPrice := r.finalPrice
          totalSavings := r.totalSavings
          breakdown := r.breakdown } st.history }
  else st

/-- Histories reachable from the initial empty history by repeated
successful calculations. -/
inductive HistoryReachable : List HistoryItem → Prop
  | init : HistoryReachable []
  | step (item : HistoryItem) (h : List HistoryItem) :
      HistoryReachable h → HistoryReachable (addToHistory item h)

/-! ### Concrete inputs used by scenarios, witnesses and counterexamples -/

/-- Scenario input: `originalPrice=50, useCoupon=true, couponValue=100`. -/
def fCoupon50 : Form :=
  { originalPrice := .num 50, useCoupon := true, couponValue := .num 100 }

/-- Adversarial input: `originalPrice=0.008, discountRate=99, useCoupon, couponValue=100`.
The discount stage rounds `0.008 * 0.99 = 0.00792` up to `0.01`, larger than the
running total, which becomes `-0.002`; the coupon stage then records that
negative value as `couponAmount`. -/
def fOvershoot : Form :=
  { originalPrice := .num (1 / 125), discountRate := .num 99,
    useCoupon := true, couponValue := .num 100 }

/-- Adversarial input: `originalPrice=0.008, buyX=1, getY=1, itemPrice=0.008`.
The promotion deduction `roundToTwoDecimals(min(0.008, 0.008)) = 0.01`
exceeds the running total. -/
def fPromoTiny : Form :=
  { originalPrice := .num (1 / 125), buyX := .num 1, getY := .num 1,
    itemPrice := .num (1 / 125) }

/-- Scenario input: `originalPrice=100, buyX=2, getY=1, itemPrice=25`. -/
def fBuy2Get1 : Form :=
  { originalPrice := .num 100, buyX := .num 2, getY := .num 1,
    itemPrice := .num 25 }

/-- Scenario input: `originalPrice=100, shippingFee=10, taxRate=10`. -/
def fShipTax : Form :=
  { originalPrice := .num 100, shippingFee := .num 10, taxRate := .num 10 }

/-- Input with a firing spend-and-save stage: spend 50, save 10 on a 100 base. -/
def fSpendSave : Form :=
  { originalPrice := .num 100, spendAmount := .num 50, saveAmount := .num 10 }

/-- Input with a missing original price. -/
def fBadPrice : Form := { originalPrice := .empty }

/-- Input violating both the originalPrice rule and the discountRate rule. -/
def fBothBad : Form := { originalPrice := .empty, discountRate := .num 200 }

/-- Input with partial grouped pairs: `buyX` present without `getY`, and
`spendAmount` present without `saveAmount`. -/
def fPartial : Form :=
  { originalPrice := .num 100, buyX := .num 2, spendAmount := .num 50 }

/-- An empty component state. -/
def stEmpty : AppState := { results := none, history := [] }

/-- A sample history entry. -/
def sampleItem : HistoryItem :=
  { originalPrice := .num 1, finalPrice := 1, totalSavings := 0,
    breakdown :=
      { basePrice := 1, discountAmount := 0, couponAmount := 0,
        promotionAmount := 0, spendSaveAmount := 0, shippingFee := 0,
        taxAmount := 0 } }


/-! ### Basic properties of the rounding helper -/

theorem round2Slack_pos : 0 < round2Slack := by
  unfold round2Slack numberEpsilon
  norm_num

theorem roundToTwoDecimals_le (x : ℚ) :
    roundToTwoDecimals x ≤ x + round2Slack := by
  unfold roundToTwoDecimals round2Slack
  have h : ((round ((x + numberEpsilon) * 100) : ℤ) : ℚ) ≤ (x + numberEpsilon) * 100 + 1 / 2 := by
    rw [round_eq]
    exact_mod_cast Int.floor_le ((x + numberEpsilon) * 100 + 1 / 2)
  have h100 : (0 : ℚ) < 100 := by norm_num
  rw [div_le_iff₀ h100]
  linarith

theorem roundToTwoDecimals_nonneg {x : ℚ} (hx : -round2Slack ≤ x) :
    0 ≤ roundToTwoDecimals x := by
  unfold roundToTwoDecimals
  have h : (0 : ℤ) ≤ round ((x + numberEpsilon) * 100) := by
    rw [round_eq]
    refine Int.le_floor.mpr ?_
    push_cast
    unfold round2Slack at hx
    nlinarith
  have h' : (0 : ℚ) ≤ ((round ((x + numberEpsilon) * 100) : ℤ) : ℚ) := by exact_mod_cast h
  exact div_nonneg h' (by norm_num)

/-! ### Unpacking a passed validation -/

theorem isEmpty_iff (f : Form) :
    (validateInputs f).isEmpty = true ↔
      ¬origBad f ∧ ¬discountBad f ∧ ¬shippingBad f ∧ ¬taxBad f ∧
      ¬couponBad f ∧ ¬buyPairBad f ∧ ¬itemPriceBad f ∧ ¬spendPairBad f := by
  unfold validateInputs Errors.isEmpty
  simp only [Bool.and_eq_true, Option.isNone_iff_eq_none, ite_eq_right_iff,
    reduceCtorEq, imp_false]
  tauto

theorem valid_originalPrice {f : Form} (hv : (validateInputs f).isEmpty = true) :
    0 < parseFloat f.originalPrice := by
  have h := ((isEmpty_iff f).mp hv).1
  unfold origBad at h
  push_neg at h
  exact h.2.2

theorem valid_discountRate {f : Form} (hv : (validateInputs f).isEmpty = true)
    (ht : f.discountRate.truthy = true) : parseFloat f.discountRate < 100 := by
  have h := ((isEmpty_iff f).mp hv).2.1
  unfold discountBad at h
  push_neg at h
  exact h ht |>.2.2

theorem valid_shipping {f : Form} (hv : (validateInputs f).isEmpty = true) :
    0 ≤ shippingOf f := by
  have h := ((isEmpty_iff f).mp hv).2.2.1
  unfold shippingBad at h
  push_neg at h
  unfold shippingOf
  split
  · next htr => exact (h htr).2
  · exact le_refl 0

/-! ### Stage bookkeeping: each stage touches only its own breakdown field -/

theorem applyDiscount_breakdown (f : Form) (s : StageState) :
    (applyDiscount f s).breakdown.basePrice = s.breakdown.basePrice ∧
    (applyDiscount f s).breakdown.couponAmount = s.breakdown.couponAmount ∧
    (applyDiscount f s).breakdown.promotionAmount = s.breakdown.promotionAmount ∧
    (applyDiscount f s).breakdown.spendSaveAmount = s.breakdown.spendSaveAmount ∧
    (applyDiscount f s).breakdown.shippingFee = s.breakdown.shippingFee ∧
    (applyDiscount f s).breakdown.taxAmount = s.breakdown.taxAmount := by
  unfold applyDiscount
  split <;> exact ⟨rfl, rfl, rfl, rfl, rfl, rfl⟩

theorem applyBuyXGetY_breakdown (f : Form) (s : StageState) :
    (applyBuyXGetY f s).breakdown.basePrice = s.breakdown.basePrice ∧
    (applyBuyXGetY f s).breakdown.discountAmount = s.breakdown.discountAmount ∧
    (applyBuyXGetY f s).breakdown.couponAmount = s.breakdown.couponAmount ∧
    (applyBuyXGetY f s).breakdown.spendSaveAmount = s.breakdown.spendSaveAmount ∧
    (applyBuyXGetY f s).breakdown.shippingFee = s.breakdown.shippingFee ∧
    (applyBuyXGetY f s).breakdown.taxAmount = s.breakdown.taxAmount := by
  unfold applyBuyXGetY
  split
  · dsimp only
    split <;> exact ⟨rfl, rfl, rfl, rfl, rfl, rfl⟩
  · exact ⟨rfl, rfl, rfl, rfl, rfl, rfl⟩

theorem applyCoupon_breakdown (f : Form) (s : StageState) :
    (applyCoupon f s).breakdown.basePrice = s.breakdown.basePrice ∧
    (applyCoupon f s).breakdown.discountAmount = s.breakdown.discountAmount ∧
    (applyCoupon f s).breakdown.promotionAmount = s.breakdown.promotionAmount ∧
    (applyCoupon f s).breakdown.spendSaveAmount = s.breakdown.spendSaveAmount ∧
    (applyCoupon f s).breakdown.shippingFee = s.breakdown.shippingFee ∧
    (applyCoupon f s).breakdown.taxAmount = s.breakdown.taxAmount := by
  unfold applyCoupon
  split <;> exact ⟨rfl, rfl, rfl, rfl, rfl, rfl⟩

theorem applySpendSave_breakdown (f : Form) (s : StageState) :
    (applySpendSave f s).breakdown.basePrice = s.breakdown.basePrice ∧
    (applySpendSave f s).breakdown.discountAmount = s.breakdown.discountAmount ∧
    (applySpendSave f s).breakdown.couponAmount = s.breakdown.couponAmount ∧
    (applySpendSave f s).breakdown.promotionAmount = s.breakdown.promotionAmount ∧
    (applySpendSave f s).breakdown.shippingFee = s.breakdown.shippingFee ∧
    (applySpendSave f s).breakdown.taxAmount = s.breakdown.taxAmount := by
  unfold applySpendSave
  split <;> exact ⟨rfl, rfl, rfl, rfl, rfl, rfl⟩

theorem applyShipping_breakdown (f : Form) (s : StageState) :
    (applyShipping f s).breakdown = s.breakdown := rfl

theorem applyTax_breakdown (f : Form) (s : StageState) :
    (applyTax f s).breakdown.basePrice = s.breakdown.basePrice ∧
    (applyTax f s).breakdown.discountAmount = s.breakdown.discountAmount ∧
    (applyTax f s).breakdown.couponAmount = s.breakdown.couponAmount ∧
    (applyTax f s).breakdown.promotionAmount = s.breakdown.promotionAmount ∧
    (applyTax f s).breakdown.spendSaveAmount = s.breakdown.spendSaveAmount ∧
    (applyTax f s).breakdown.shippingFee = s.breakdown.shippingFee := by
  unfold applyTax
  split <;> exact ⟨rfl, rfl, rfl, rfl, rfl, rfl⟩

theorem pipeline_basePrice (f : Form) :
    (pipeline f).breakdown.basePrice = parseFloat f.originalPrice := by
  unfold pipeline
  rw [(applyTax_breakdown f _).1, (applyShipping_breakdown f _), (applySpendSave_breakdown f _).1,
    (applyCoupon_breakdown f _).1, (applyBuyXGetY_breakdown f _).1, (applyDiscount_breakdown f _).1]
  rfl

theorem pipeline_shippingFee (f : Form) :
    (pipeline f).breakdown.shippingFee = shippingOf f := by
  unfold pipeline
  rw [(applyTax_breakdown f _).2.2.2.2.2, (applyShipping_breakdown f _),
    (applySpendSave_breakdown f _).2.2.2.2.1, (applyCoupon_breakdown f _).2.2.2.2.1,
    (applyBuyXGetY_breakdown f _).2.2.2.2.1, (applyDiscount_breakdown f _).2.2.2.2.1]
  rfl

/-! ### Sign bounds threaded through the stages

The running total can dip below zero by at most `round2Slack`
(= `numberEpsilon + 1/200`): `roundToTwoDecimals` can overshoot the
`min()` cap of a deduction by at most that much. -/

theorem applyDiscount_bounds {f : Form} {s : StageState}
    (hrt : 0 < s.runningTotal)
    (h0 : s.breakdown.discountAmount = 0)
    (hlt : f.discountRate.truthy = true → parseFloat f.discountRate < 100) :
    -round2Slack ≤ (applyDiscount f s).runningTotal ∧
    0 ≤ (applyDiscount f s).breakdown.discountAmount := by
  unfold applyDiscount
  split
  · next hc =>
    obtain ⟨htr, hpos⟩ := hc
    have hr100 := hlt htr
    dsimp only
    constructor
    · have hle := roundToTwoDecimals_le
        (s.runningTotal * (parseFloat f.discountRate / 100))
      have key : 0 ≤ s.runningTotal * (100 - parseFloat f.discountRate) / 100 :=
        div_nonneg (mul_nonneg hrt.le (by linarith)) (by norm_num)
      have expand : s.runningTotal - s.runningTotal * (parseFloat f.discountRate / 100)
          = s.runningTotal * (100 - parseFloat f.discountRate) / 100 := by ring
      linarith
    · refine roundToTwoDecimals_nonneg ?_
      have hm : 0 ≤ s.runningTotal * (parseFloat f.discountRate / 100) :=
        mul_nonneg hrt.le (div_nonneg hpos.le (by norm_num))
      linarith [round2Slack_pos]
  · exact ⟨by linarith [round2Slack_pos], by rw [h0]⟩

theorem applyBuyXGetY_bounds {f : Form} {s : StageState}
    (hrt : -round2Slack ≤ s.runningTotal)
    (h0 : s.breakdown.promotionAmount = 0) :
    -round2Slack ≤ (applyBuyXGetY f s).runningTotal ∧
    0 ≤ (applyBuyXGetY f s).breakdown.promotionAmount := by
  unfold applyBuyXGetY
  split
  · next hc =>
    obtain ⟨htx, hty, hti, hbx, hgy, hip⟩ := hc
    dsimp only
    split
    · next hq =>
      have hfloor : (0 : ℤ) ≤
          ⌊((⌈s.breakdown.basePrice / parseFloat f.itemPrice⌉ : ℤ) : ℚ) / parseFloat f.buyX⌋ :=
        Int.floor_nonneg.mpr (div_nonneg (by exact_mod_cast hq.le) hbx.le)
      have hfree : 0 ≤
          ((⌊((⌈s.breakdown.basePrice / parseFloat f.itemPrice⌉ : ℤ) : ℚ) / parseFloat f.buyX⌋ : ℤ) : ℚ)
            * parseFloat f.getY * parseFloat f.itemPrice := by
        have : (0 : ℚ) ≤
            ((⌊((⌈s.breakdown.basePrice / parseFloat f.itemPrice⌉ : ℤ) : ℚ) / parseFloat f.buyX⌋ : ℤ) : ℚ) := by
          exact_mod_cast hfloor
        exact mul_nonneg (mul_nonneg this hgy.le) hip.le
      have hmin_le : min s.runningTotal
          (((⌊((⌈s.breakdown.basePrice / parseFloat f.itemPrice⌉ : ℤ) : ℚ) / parseFloat f.buyX⌋ : ℤ) : ℚ)
            * parseFloat f.getY * parseFloat f.itemPrice) ≤ s.runningTotal :=
        min_le_left _ _
      have hmin_ge : -round2Slack ≤ min s.runningTotal
          (((⌊((⌈s.breakdown.basePrice / parseFloat f.itemPrice⌉ : ℤ) : ℚ) / parseFloat f.buyX⌋ : ℤ) : ℚ)
            * parseFloat f.getY * parseFloat f.itemPrice) :=
        le_min hrt (by linarith [round2Slack_pos])
      constructor
      · have hle := roundToTwoDecimals_le (min s.runningTotal
          (((⌊((⌈s.breakdown.basePrice / parseFloat f.itemPrice⌉ : ℤ) : ℚ) / parseFloat f.buyX⌋ : ℤ) : ℚ)
            * parseFloat f.getY * parseFloat f.itemPrice))
        linarith
      · exact roundToTwoDecimals_nonneg hmin_ge
    · exact ⟨hrt, le_of_eq h0.symm⟩
  · exact ⟨hrt, le_of_eq h0.symm⟩

theorem applyCoupon_bounds {f : Form} {s : StageState}
    (hrt : -round2Slack ≤ s.runningTotal)
    (h0 : s.breakdown.couponAmount = 0) :
    -round2Slack ≤ (applyCoupon f s).runningTotal ∧
    -round2Slack ≤ (applyCoupon f s).breakdown.couponAmount := by
  unfold applyCoupon
  split
  · next hc =>
    obtain ⟨-, -, hcv⟩ := hc
    dsimp only
    constructor
    · have h1 : min s.runningTotal (parseFloat f.couponValue) ≤ s.runningTotal :=
        min_le_left _ _
      linarith [round2Slack_pos]
    · exact le_min hrt (by linarith [round2Slack_pos])
  · exact ⟨hrt, by rw [h0]; linarith [round2Slack_pos]⟩

theorem applySpendSave_bounds {f : Form} {s : StageState}
    (hrt : -round2Slack ≤ s.runningTotal)
    (h0 : s.breakdown.spendSaveAmount = 0) :
    -round2Slack ≤ (applySpendSave f s).runningTotal ∧
    -round2Slack ≤ (applySpendSave f s).breakdown.spendSaveAmount := by
  unfold applySpendSave
  split
  · next hc =>
    obtain ⟨-, -, -, hsv, -⟩ := hc
    dsimp only
    constructor
    · have h1 : min s.runningTotal (parseFloat f.saveAmount) ≤ s.runningTotal :=
        min_le_left _ _
      linarith [round2Slack_pos]
    · exact le_min hrt (by linarith [round2Slack_pos])
  · exact ⟨hrt, by rw [h0]; linarith [round2Slack_pos]⟩

theorem pipeline_sign_facts {f : Form} (hv : (validateInputs f).isEmpty = true) :
    0 < (pipeline f).breakdown.basePrice ∧
    0 ≤ (pipeline f).breakdown.discountAmount ∧
    0 ≤ (pipeline f).breakdown.promotionAmount ∧
    0 ≤ (pipeline f).breakdown.shippingFee ∧
    -round2Slack ≤ (pipeline f).breakdown.couponAmount ∧
    -round2Slack ≤ (pipeline f).breakdown.spendSaveAmount := by
  have hbase := valid_originalPrice hv
  have hs1 := applyDiscount_bounds (f := f) (s := initState f) hbase rfl
    (valid_discountRate hv)
  have hs2 := applyBuyXGetY_bounds (f := f) (s := applyDiscount f (initState f))
    hs1.1 ((applyDiscount_breakdown f (initState f)).2.2.1.trans rfl)
  have hs3 := applyCoupon_bounds
    (f := f) (s := applyBuyXGetY f (applyDiscount f (initState f))) hs2.1
    (((applyBuyXGetY_breakdown f _).2.2.1).trans
      (((applyDiscount_breakdown f (initState f)).2.1).trans rfl))
  have hs4 := applySpendSave_bounds
    (f := f) (s := applyCoupon f (applyBuyXGetY f (applyDiscount f (initState f)))) hs3.1
    (((applyCoupon_breakdown f _).2.2.2.1).trans
      (((applyBuyXGetY_breakdown f _).2.2.2.1).trans
        (((applyDiscount_breakdown f (initState f)).2.2.2.1).trans rfl)))
  refine ⟨?_, ?_, ?_, ?_, ?_, ?_⟩
  · rw [pipeline_basePrice]; exact hbase
  · show 0 ≤ (pipeline f).breakdown.discountAmount
    unfold pipeline
    rw [(applyTax_breakdown f _).2.1, congrArg Breakdown.discountAmount (applyShipping_breakdown f _),
      (applySpendSave_breakdown f _).2.1, (applyCoupon_breakdown f _).2.1,
      (applyBuyXGetY_breakdown f _).2.1]
    exact hs1.2
  · show 0 ≤ (pipeline f).breakdown.promotionAmount
    unfold pipeline
    rw [(applyTax_breakdown f _).2.2.2.1, congrArg Breakdown.promotionAmount (applyShipping_breakdown f _),
      (applySpendSave_breakdown f _).2.2.2.1, (applyCoupon_breakdown f _).2.2.1]
    exact hs2.2
  · rw [pipeline_shippingFee]; exact valid_shipping hv
  · show -round2Slack ≤ (pipeline f).breakdown.couponAmount
    unfold pipeline
    rw [(applyTax_breakdown f _).2.2.1, congrArg Breakdown.couponAmount (applyShipping_breakdown f _),
      (applySpendSave_breakdown f _).2.2.1]
    exact hs3.2
  · show -round2Slack ≤ (pipeline f).breakdown.spendSaveAmount
    unfold pipeline
    rw [(applyTax_breakdown f _).2.2.2.2.1, congrArg Breakdown.spendSaveAmount (applyShipping_breakdown f _)]
    exact hs4.2

/-! ### Claim C1 -/

/-- Claim C1: for every input that passes validation the final price is
non-negative, even under adversarial deduction combinations; in the
scenario `originalPrice=50, useCoupon, couponValue=100` the coupon is
capped at `min(50,100)=50` and the final price is `0.00`. -/
theorem finalPrice_nonneg (f : Form) (_hv : (validateInputs f).isEmpty = true) :
    0 ≤ (evaluate f).finalPrice ∧
    (validateInputs fCoupon50).isEmpty = true ∧
    (evaluate fCoupon50).breakdown.couponAmount = 50 ∧
    (evaluate fCoupon50).finalPrice = 0 := by
  refine ⟨?_, ?_, ?_, ?_⟩
  · show 0 ≤ roundToTwoDecimals (max 0 (pipeline f).runningTotal)
    refine roundToTwoDecimals_nonneg (le_trans ?_ (le_max_left 0 _))
    linarith [round2Slack_pos]
  · with_unfolding_all decide
  · with_unfolding_all decide
  · with_unfolding_all decide

/-- Witness for C1 at the concrete coupon scenario. -/
theorem finalPrice_nonneg_witness :
    (validateInputs fCoupon50).isEmpty = true ∧ 0 ≤ (evaluate fCoupon50).finalPrice := by
  refine ⟨by with_unfolding_all decide, ?_⟩
  exact (finalPrice_nonneg fCoupon50 (by with_unfolding_all decide)).1

/-! ### Claim C2 -/

set_option maxRecDepth 100000 in
/-- Claim C2 is false as stated: on the valid input `fOvershoot`
(`originalPrice=0.008, discountRate=99, coupon 100`) the recorded
`couponAmount` is negative, and on the valid input `fPromoTiny` the
buy-X-get-Y deduction drives the running total below zero before the
coupon and spend-and-save stages. -/
theorem breakdown_nonneg_counterexample :
    (validateInputs fOvershoot).isEmpty = true ∧
    (evaluate fOvershoot).breakdown.couponAmount < 0 ∧
    (validateInputs fPromoTiny).isEmpty = true ∧
    (applyBuyXGetY fPromoTiny (applyDiscount fPromoTiny (initState fPromoTiny))).runningTotal < 0 := by
  refine ⟨?_, ?_, ?_, ?_⟩
  · with_unfolding_all decide
  · with_unfolding_all decide
  · with_unfolding_all decide
  · with_unfolding_all decide

/-- Claim C2 as amended: for every validated input, `basePrice` is
positive and `discountAmount`, `promotionAmount` and `shippingFee` are
non-negative, while `couponAmount` and `spendSaveAmount` are only
bounded below by `-(1/200 + Number.EPSILON)`, because the rounding of a
deduction can overshoot the running total by that much. -/
theorem breakdown_sign_bounds (f : Form) (hv : (validateInputs f).isEmpty = true) :
    0 < (evaluate f).breakdown.basePrice ∧
    0 ≤ (evaluate f).breakdown.discountAmount ∧
    0 ≤ (evaluate f).breakdown.promotionAmount ∧
    0 ≤ (evaluate f).breakdown.shippingFee ∧
    -round2Slack ≤ (evaluate f).breakdown.couponAmount ∧
    -round2Slack ≤ (evaluate f).breakdown.spendSaveAmount :=
  pipeline_sign_facts hv

/-- Witness for the amended C2 at the shipping-and-tax scenario input. -/
theorem breakdown_sign_bounds_witness :
    (validateInputs fShipTax).isEmpty = true ∧
    0 < (evaluate fShipTax).breakdown.basePrice := by
  refine ⟨by with_unfolding_all decide, ?_⟩
  exact (breakdown_sign_bounds fShipTax (by with_unfolding_all decide)).1

/-! ### Claim C3 -/

/-- Claim C3: a missing, non-numeric or non-positive `originalPrice`
produces a validation error on `originalPrice`, and the calculation
handler returns without touching results or history. -/
theorem invalid_originalPrice_blocks (f : Form) (st : AppState) (hbad : origBad f) :
    (validateInputs f).originalPrice ≠ none ∧ pressCalculate f st = st := by
  constructor
  · show (if origBad f then some "Please enter a valid positive price" else none) ≠ none
    rw [if_pos hbad]
    exact Option.some_ne_none _
  · have hne : ¬((validateInputs f).isEmpty = true) := fun hempty =>
      (((isEmpty_iff f).mp hempty).1) hbad
    unfold pressCalculate
    rw [if_neg hne]

/-- Witness for C3 on the empty-price input. -/
theorem invalid_originalPrice_blocks_witness :
    (validateInputs fBadPrice).originalPrice ≠ none ∧
    pressCalculate fBadPrice stEmpty = stEmpty :=
  invalid_originalPrice_blocks fBadPrice stEmpty (by decide)

/-! ### Claim C4 -/

/-- Claim C4: validation is total, checks all eight rules independently
of each other (each field's error is exactly its own rule's verdict, so
there is no short-circuit), and returns the complete error map, empty
exactly when every rule passes; the input `fBothBad` violating both the
originalPrice and the discountRate rules receives both errors at once. -/
theorem validation_complete (f : Form) :
    ((validateInputs f).originalPrice =
      if origBad f then some "Please enter a valid positive price" else none) ∧
    ((validateInputs f).discountRate =
      if discountBad f then some "Discount must be between 0-99%" else none) ∧
    ((validateInputs f).shippingFee =
      if shippingBad f then some "Shipping fee cannot be negative" else none) ∧
    ((validateInputs f).taxRate =
      if taxBad f then some "Tax rate cannot be negative" else none) ∧
    ((validateInputs f).couponValue =
      if couponBad f then some "Please enter a valid coupon value" else none) ∧
    ((validateInputs f).buyX =
      if buyPairBad f then some "Both \"Buy X\" and \"Get Y\" must be positive numbers" else none) ∧
    ((validateInputs f).getY =
      if buyPairBad f then some "Both \"Buy X\" and \"Get Y\" must be positive numbers" else none) ∧
    ((validateInputs f).itemPrice =
      if itemPriceBad f then some "Please enter a valid item price" else none) ∧
    ((validateInputs f).spendAmount =
      if spendPairBad f then some "Both \"Spend\" and \"Save\" amounts must be positive numbers" else none) ∧
    ((validateInputs f).saveAmount =
      if spendPairBad f then some "Both \"Spend\" and \"Save\" amounts must be positive numbers" else none) ∧
    ((validateInputs f).isEmpty = true ↔
      ¬origBad f ∧ ¬discountBad f ∧ ¬shippingBad f ∧ ¬taxBad f ∧
      ¬couponBad f ∧ ¬buyPairBad f ∧ ¬itemPriceBad f ∧ ¬spendPairBad f) ∧
    (validateInputs fBothBad).originalPrice ≠ none ∧
    (validateInputs fBothBad).discountRate ≠ none :=
  ⟨rfl, rfl, rfl, rfl, rfl, rfl, rfl, rfl, rfl, rfl, isEmpty_iff f,
    by decide, by decide⟩

/-! ### Claim C5 -/

/-- Claim C5 is false as stated: the promotion deduction is not
`min(runningTotal, freeItemsCount * itemPrice)` but its rounding to two
decimals; on the valid input `fPromoTiny` the recorded deduction `0.01`
differs from the min, which is `0.008`. -/
theorem promotion_min_counterexample :
    (validateInputs fPromoTiny).isEmpty = true ∧
    (evaluate fPromoTiny).breakdown.promotionAmount ≠
      min (applyDiscount fPromoTiny (initState fPromoTiny)).runningTotal
        (((⌊((⌈parseFloat fPromoTiny.originalPrice / parseFloat fPromoTiny.itemPrice⌉ : ℤ) : ℚ) / parseFloat fPromoTiny.buyX⌋ : ℤ) : ℚ)
          * parseFloat fPromoTiny.getY * parseFloat fPromoTiny.itemPrice) := by
  constructor
  · with_unfolding_all decide
  · with_unfolding_all decide

/-- Claim C5 as amended: in the buy-X-get-Y stage the quantity is
`ceil(basePrice / itemPrice)` computed from the original base price,
`freeItemsCount = floor(quantity / buyX) * getY`, and the deduction is
`roundToTwoDecimals(min(runningTotal, freeItemsCount * itemPrice))`; on
`originalPrice=100, buyX=2, getY=1, itemPrice=25` the quantity is 4, the
free item count 2, the deduction 50.00 and the final price 50.00. -/
theorem promotion_formula (f : Form) (hv : (validateInputs f).isEmpty = true)
    (hx : f.buyX.truthy = true) (hy : f.getY.truthy = true)
    (hi : f.itemPrice.truthy = true) (hbx : 0 < parseFloat f.buyX)
    (hgy : 0 < parseFloat f.getY) (hip : 0 < parseFloat f.itemPrice) :
    (evaluate f).breakdown.promotionAmount =
      roundToTwoDecimals (min (applyDiscount f (initState f)).runningTotal
        (((⌊((⌈parseFloat f.originalPrice / parseFloat f.itemPrice⌉ : ℤ) : ℚ) / parseFloat f.buyX⌋ : ℤ) : ℚ)
          * parseFloat f.getY * parseFloat f.itemPrice)) ∧
    (⌈parseFloat fBuy2Get1.originalPrice / parseFloat fBuy2Get1.itemPrice⌉ : ℤ) = 4 ∧
    ((⌊((⌈parseFloat fBuy2Get1.originalPrice / parseFloat fBuy2Get1.itemPrice⌉ : ℤ) : ℚ) / parseFloat fBuy2Get1.buyX⌋ : ℤ) : ℚ)
        * parseFloat fBuy2Get1.getY = 2 ∧
    (evaluate fBuy2Get1).breakdown.promotionAmount = 50 ∧
    (evaluate fBuy2Get1).finalPrice = 50 := by
  refine ⟨?_, by with_unfolding_all decide, by with_unfolding_all decide,
    by with_unfolding_all decide, by with_unfolding_all decide⟩
  have hbp : (applyDiscount f (initState f)).breakdown.basePrice = parseFloat f.originalPrice :=
    (applyDiscount_breakdown f (initState f)).1
  have hq : (0 : ℤ) < ⌈(applyDiscount f (initState f)).breakdown.basePrice / parseFloat f.itemPrice⌉ := by
    rw [hbp]
    exact Int.ceil_pos.mpr (div_pos (valid_originalPrice hv) hip)
  show (pipeline f).breakdown.promotionAmount = _
  unfold pipeline
  rw [(applyTax_breakdown f _).2.2.2.1,
    congrArg Breakdown.promotionAmount (applyShipping_breakdown f _),
    (applySpendSave_breakdown f _).2.2.2.1, (applyCoupon_breakdown f _).2.2.1]
  unfold applyBuyXGetY
  rw [if_pos ⟨hx, hy, hi, hbx, hgy, hip⟩]
  dsimp only
  rw [if_pos hq]
  dsimp only
  rw [hbp]

/-- Witness for the amended C5 at the scenario input. -/
theorem promotion_formula_witness :
    (evaluate fBuy2Get1).breakdown.promotionAmount =
      roundToTwoDecimals (min (applyDiscount fBuy2Get1 (initState fBuy2Get1)).runningTotal
        (((⌊((⌈parseFloat fBuy2Get1.originalPrice / parseFloat fBuy2Get1.itemPrice⌉ : ℤ) : ℚ) / parseFloat fBuy2Get1.buyX⌋ : ℤ) : ℚ)
          * parseFloat fBuy2Get1.getY * parseFloat fBuy2Get1.itemPrice)) :=
  (promotion_formula fBuy2Get1 (by with_unfolding_all decide) (by decide) (by decide)
    (by decide) (by decide) (by decide) (by decide)).1

/-! ### Claim C6 -/

/-- Claim C6: when the tax rate is positive the tax stage computes
`roundToTwoDecimals(runningTotal * taxRate / 100)` on the post-shipping
running total (so tax applies to the shipping fee too) and adds it to
the running total; on `originalPrice=100, shippingFee=10, taxRate=10`
the tax is 11.00, the final price 121.00 and the savings 0.00. -/
theorem tax_on_post_shipping_total (f : Form) (ht : 0 < taxRateOf f) :
    (pipeline f).breakdown.taxAmount =
      roundToTwoDecimals ((preTaxState f).runningTotal * (taxRateOf f / 100)) ∧
    (pipeline f).runningTotal =
      (preTaxState f).runningTotal + (pipeline f).breakdown.taxAmount ∧
    (preTaxState f).runningTotal =
      (applySpendSave f (preSpendState f)).runningTotal + shippingOf f ∧
    (evaluate fShipTax).breakdown.taxAmount = 11 ∧
    (evaluate fShipTax).finalPrice = 121 ∧
    (evaluate fShipTax).totalSavings = 0 := by
  refine ⟨?_, ?_, rfl, by with_unfolding_all decide, by with_unfolding_all decide,
    by with_unfolding_all decide⟩
  · show (applyTax f (preTaxState f)).breakdown.taxAmount = _
    unfold applyTax
    rw [if_pos ht]
  · show (applyTax f (preTaxState f)).runningTotal =
      (preTaxState f).runningTotal + (applyTax f (preTaxState f)).breakdown.taxAmount
    unfold applyTax
    rw [if_pos ht]

/-- Witness for C6 at the shipping-and-tax scenario input. -/
theorem tax_on_post_shipping_total_witness :
    (evaluate fShipTax).finalPrice = 121 :=
  (tax_on_post_shipping_total fShipTax (by decide)).2.2.2.2.1

/-! ### Claim C7 -/

/-- Claim C7: for every validated input, `totalSavings` is the rounded
sum of the four deduction fields of the same breakdown; the shipping fee
and the tax amount contribute nothing to it. -/
theorem totalSavings_formula (f : Form) (_hv : (validateInputs f).isEmpty = true) :
    (evaluate f).totalSavings =
      roundToTwoDecimals ((evaluate f).breakdown.discountAmount +
        (evaluate f).breakdown.couponAmount +
        (evaluate f).breakdown.promotionAmount +
        (evaluate f).breakdown.spendSaveAmount) := rfl

/-- Witness for C7 at the coupon scenario input. -/
theorem totalSavings_formula_witness :
    (validateInputs fCoupon50).isEmpty = true ∧
    (evaluate fCoupon50).totalSavings =
      roundToTwoDecimals ((evaluate fCoupon50).breakdown.discountAmount +
        (evaluate fCoupon50).breakdown.couponAmount +
        (evaluate fCoupon50).breakdown.promotionAmount +
        (evaluate fCoupon50).breakdown.spendSaveAmount) :=
  ⟨by with_unfolding_all decide, totalSavings_formula fCoupon50 (by with_unfolding_all decide)⟩

/-! ### Claim C8 -/

/-- Claim C8: the spend-and-save stage fires exactly when both fields
are present and positive and the threshold `spendAmount` does not exceed
the original base price (not the discounted running total); when it
fires it deducts `min(runningTotal, saveAmount)` and records it, and
otherwise it leaves the state unchanged. -/
theorem spendSave_threshold (f : Form) :
    ((f.spendAmount.truthy = true ∧ f.saveAmount.truthy = true ∧
        0 < parseFloat f.spendAmount ∧ 0 < parseFloat f.saveAmount ∧
        parseFloat f.spendAmount ≤ parseFloat f.originalPrice) →
      (applySpendSave f (preSpendState f)).breakdown.spendSaveAmount =
          min (preSpendState f).runningTotal (parseFloat f.saveAmount) ∧
        (applySpendSave f (preSpendState f)).runningTotal =
          (preSpendState f).runningTotal -
            min (preSpendState f).runningTotal (parseFloat f.saveAmount)) ∧
    (¬(f.spendAmount.truthy = true ∧ f.saveAmount.truthy = true ∧
        0 < parseFloat f.spendAmount ∧ 0 < parseFloat f.saveAmount ∧
        parseFloat f.spendAmount ≤ parseFloat f.originalPrice) →
      applySpendSave f (preSpendState f) = preSpendState f) := by
  have hbp : (preSpendState f).breakdown.basePrice = parseFloat f.originalPrice := by
    unfold preSpendState
    rw [(applyCoupon_breakdown f _).1, (applyBuyXGetY_breakdown f _).1,
      (applyDiscount_breakdown f _).1]
    rfl
  constructor
  · intro hc
    unfold applySpendSave
    rw [if_pos (show f.spendAmount.truthy = true ∧ f.saveAmount.truthy = true ∧
        0 < parseFloat f.spendAmount ∧ 0 < parseFloat f.saveAmount ∧
        parseFloat f.spendAmount ≤ (preSpendState f).breakdown.basePrice from
      ⟨hc.1, hc.2.1, hc.2.2.1, hc.2.2.2.1, by rw [hbp]; exact hc.2.2.2.2⟩)]
    exact ⟨rfl, rfl⟩
  · intro hc
    unfold applySpendSave
    rw [if_neg (fun hcond => hc ⟨hcond.1, hcond.2.1, hcond.2.2.1, hcond.2.2.2.1,
      by rw [← hbp]; exact hcond.2.2.2.2⟩)]

/-- Witness for C8 at a firing spend-and-save input. -/
theorem spendSave_threshold_witness :
    (applySpendSave fSpendSave (preSpendState fSpendSave)).breakdown.spendSaveAmount =
      min (preSpendState fSpendSave).runningTotal (parseFloat fSpendSave.saveAmount) :=
  ((spendSave_threshold fSpendSave).1 (by decide)).1

/-! ### Claim C9 -/

/-- Claim C9: whenever the buy-X/get-Y rule or the spend/save rule is
violated (one member present without the other, or a member non-numeric
or not positive), validation places the same error message on both
fields of the pair. -/
theorem grouped_pair_errors (f : Form) :
    (buyPairBad f →
      (validateInputs f).buyX = (validateInputs f).getY ∧
        (validateInputs f).buyX ≠ none) ∧
    (spendPairBad f →
      (validateInputs f).spendAmount = (validateInputs f).saveAmount ∧
        (validateInputs f).spendAmount ≠ none) := by
  constructor
  · intro h
    refine ⟨rfl, ?_⟩
    show (if buyPairBad f then some "Both \"Buy X\" and \"Get Y\" must be positive numbers" else none) ≠ none
    rw [if_pos h]
    exact Option.some_ne_none _
  · intro h
    refine ⟨rfl, ?_⟩
    show (if spendPairBad f then some "Both \"Spend\" and \"Save\" amounts must be positive numbers" else none) ≠ none
    rw [if_pos h]
    exact Option.some_ne_none _

/-- Witness for C9 on an input with both pairs partially specified. -/
theorem grouped_pair_errors_witness :
    ((validateInputs fPartial).buyX = (validateInputs fPartial).getY ∧
      (validateInputs fPartial).buyX ≠ none) ∧
    ((validateInputs fPartial).spendAmount = (validateInputs fPartial).saveAmount ∧
      (validateInputs fPartial).spendAmount ≠ none) :=
  ⟨(grouped_pair_errors fPartial).1 (by decide),
    (grouped_pair_errors fPartial).2 (by decide)⟩

/-! ### Claim C10 -/

/-- Claim C10: every successful calculation prepends the new entry and
keeps only the first ten, preserving the order of the surviving older
entries, so every reachable history holds at most ten entries, newest
first. -/
theorem history_prepend_bounded :
    (∀ (item : HistoryItem) (h : List HistoryItem),
      addToHistory item h = item :: h.take 9) ∧
    (∀ h : List HistoryItem, HistoryReachable h → h.length ≤ 10) := by
  constructor
  · intro item h
    show (item :: h).take (9 + 1) = item :: h.take 9
    exact List.take_succ_cons
  · intro h hr
    induction hr with
    | init => simp
    | step item h' _ _ =>
      unfold addToHistory
      simp [List.length_take]

/-- Witness for C10 on a single-step history. -/
theorem history_prepend_bounded_witness :
    addToHistory sampleItem [] = [sampleItem] ∧
    (addToHistory sampleItem []).length ≤ 10 :=
  ⟨history_prepend_bounded.1 sampleItem [],
    history_prepend_bounded.2 (addToHistory sampleItem [])
      (HistoryReachable.step sampleItem [] HistoryReachable.init)⟩

end PriceCalc
